import Mathlib

/-!
Verification development for the district-heating PLC simulation
(`src/plc/process_sim.c`, `src/plc/heating_controller.c`) and the
frame-codec / register-bank design it is specified against.

Modelling conventions:
* C `double` is embedded as `ℚ` (exact rational arithmetic); every double
  literal of the source becomes the corresponding rational literal.
* C `int` is embedded as `ℤ`, C `uint16_t` register values as `ℕ`,
  `uint32_t` counters as `ℕ` with wrap-around `% 2 ^ 32` where incremented.
* A C cast `(int)x` truncates toward zero; `c_int_of_rat` embeds it.
* Each C function over `process_state_t` becomes a pure Lean function from
  state to state; the mutex calls (pure synchronization) have no pure content.
-/

/-- `process_status_t` from process_sim.h. -/
inductive process_status_t where
  | STATUS_OK
  | STATUS_WARNING
  | STATUS_CRITICAL
  | STATUS_FROZEN
  | STATUS_BURST
deriving DecidableEq, Repr

export process_status_t (STATUS_OK STATUS_WARNING STATUS_CRITICAL STATUS_FROZEN STATUS_BURST)

/-- `control_mode_t` from process_sim.h. -/
inductive control_mode_t where
  | MODE_MANUAL
  | MODE_AUTO
deriving DecidableEq, Repr

export control_mode_t (MODE_MANUAL MODE_AUTO)

/-- Constants from process_sim.h (doubles embedded as exact rationals). -/
def TEMP_SETPOINT_DEFAULT : ℚ := 20.0

def TEMP_WARNING : ℚ := 10.0

def TEMP_CRITICAL : ℚ := 5.0

def TEMP_FROZEN : ℚ := 0.0

def TEMP_INITIAL_INSIDE : ℚ := 20.0

def TEMP_OUTSIDE_DEFAULT : ℚ := -15.0

def TEMP_SUPPLY_DEFAULT : ℚ := 90.0

def HEAT_LOSS_FACTOR : ℚ := 0.015

def HEATER_POWER_MAX : ℚ := 80.0

def THERMAL_MASS : ℚ := 30.0

def VALVE_SLEW_RATE : ℚ := 5.0

def UPDATE_INTERVAL_MS : ℚ := 1000

/-- C cast `(int)x` on a double: truncation toward zero. -/
def c_int_of_rat (x : ℚ) : ℤ :=
  if 0 ≤ x then ⌊x⌋ else -⌊-x⌋

/-- `process_state_t` from process_sim.h (mutex omitted: no pure content). -/
structure process_state_t where
  inside_temp : ℚ
  valve_cmd : ℤ
  setpoint : ℚ
  mode : control_mode_t
  outside_temp : ℚ
  status : process_status_t
  valve_actual : ℤ
  supply_temp : ℚ
  runtime : ℕ
  heater_power : ℚ
  controller_running : Bool
  time_without_control : ℕ
  pipes_burst : Bool
deriving DecidableEq, Repr

/-- `process_init` (process_sim.c lines 17-39): the post-initialization state. -/
def process_init : process_state_t where
  inside_temp := TEMP_INITIAL_INSIDE
  valve_cmd := 50
  setpoint := TEMP_SETPOINT_DEFAULT
  mode := MODE_AUTO
  outside_temp := TEMP_OUTSIDE_DEFAULT
  status := STATUS_OK
  valve_actual := 50
  supply_temp := TEMP_SUPPLY_DEFAULT
  runtime := 0
  heater_power := 0
  controller_running := true
  time_without_control := 0
  pipes_burst := false

/-- The two sequential clamps `if (v < 0) v = 0; if (v > 100) v = 100;`
used for valve_cmd and valve_actual in process_sim.c. -/
def clamp_int_0_100 (v : ℤ) : ℤ :=
  let v1 := if v < 0 then 0 else v
  if v1 > 100 then 100 else v1

/-- The two sequential clamps `if (t < -30.0) ...; if (t > 50.0) ...;`
applied to inside_temp in process_update_physics. -/
def clamp_temp (t : ℚ) : ℚ :=
  let t1 := if t < -30 then -30 else t
  if t1 > 50 then 50 else t1

/-- Valve dynamics block of process_update_physics (lines 73-84): slew
valve_actual toward valve_cmd by at most max_change. -/
def slew_valve (valve_cmd valve_actual max_change : ℤ) : ℤ :=
  let valve_diff := valve_cmd - valve_actual
  if valve_diff > max_change then valve_actual + max_change
  else if valve_diff < -max_change then valve_actual - max_change
  else valve_cmd

/-- Status-update ladder of process_update_physics (lines 120-135), as a
function of the updated inside_temp, the previous status and the previous
pipes_burst flag; returns the new (status, pipes_burst). -/
def status_update (t : ℚ) (st : process_status_t) (pb : Bool) :
    process_status_t × Bool :=
  if t ≤ TEMP_FROZEN then
    if st ≠ STATUS_BURST then
      if t ≤ -2 then (STATUS_BURST, true) else (STATUS_FROZEN, pb)
    else (st, pb)
  else if t ≤ TEMP_CRITICAL then (STATUS_CRITICAL, pb)
  else if t ≤ TEMP_WARNING then (STATUS_WARNING, pb)
  else (STATUS_OK, pb)

/-- `process_update_physics` (process_sim.c lines 49-138). -/
def process_update_physics (s : process_state_t) : process_state_t :=
  if s.pipes_burst then s
  else
    let dt : ℚ := UPDATE_INTERVAL_MS / 1000
    let runtime := (s.runtime + 1) % 2 ^ 32
    let time_without_control :=
      if s.controller_running then s.time_without_control
      else s.time_without_control + 1
    let max_change : ℤ := c_int_of_rat (VALVE_SLEW_RATE * dt)
    let va0 : ℤ :=
      if s.controller_running then slew_valve s.valve_cmd s.valve_actual max_change
      else s.valve_actual
    let valve_actual := clamp_int_0_100 va0
    let heat_loss := (s.inside_temp - s.outside_temp) * HEAT_LOSS_FACTOR
    let valve_fraction := (valve_actual : ℚ) / 100
    let heat_gain := valve_fraction * HEATER_POWER_MAX / THERMAL_MASS
    let inside_temp := clamp_temp (s.inside_temp + (heat_gain - heat_loss) * dt)
    let heater_power := valve_fraction * HEATER_POWER_MAX
    let sp := status_update inside_temp s.status s.pipes_burst
    { s with
        runtime := runtime
        time_without_control := time_without_control
        valve_actual := valve_actual
        inside_temp := inside_temp
        heater_power := heater_power
        status := sp.1
        pipes_burst := sp.2 }

/-- `process_run_controller` (process_sim.c lines 144-186). -/
def process_run_controller (s : process_state_t) : process_state_t :=
  if !s.controller_running || s.pipes_burst then s
  else if s.mode ≠ MODE_AUTO then s
  else
    let error := s.setpoint - s.inside_temp
    let deadband : ℚ := 2
    let vc0 : ℤ :=
      if error > deadband then 100
      else if error < -deadband then 0
      else c_int_of_rat (50 + (error / deadband) * 50)
    { s with valve_cmd := clamp_int_0_100 vc0 }

/-- `process_controller_crash` (process_sim.c lines 192-209). -/
def process_controller_crash (s : process_state_t) : process_state_t :=
  { s with
      controller_running := false
      time_without_control := 0
      valve_cmd := 0 }

/-- `process_from_registers` (process_sim.c lines 234-254): registers is the
NB_REGISTERS = 10 entry holding-register array (uint16 values as ℕ). -/
def process_from_registers (s : process_state_t) (registers : Fin 10 → ℕ) :
    process_state_t :=
  let s1 := if registers 1 ≤ 100 then { s with valve_cmd := (registers 1 : ℤ) } else s
  let s2 := if registers 2 ≤ 400 then { s1 with setpoint := (registers 2 : ℚ) / 10 } else s1
  if registers 3 ≤ 1 then
    { s2 with mode := if registers 3 = 0 then MODE_MANUAL else MODE_AUTO }
  else s2

/-- Iterated physics ticks (`process_update_physics` called n times, as by the
process thread's fixed-interval loop). -/
def physics_iter : ℕ → process_state_t → process_state_t
  | 0, s => s
  | n + 1, s => physics_iter n (process_update_physics s)

/-- One iteration of the process-thread loop (heating_controller.c lines
96-121): physics update, then the controller when the controller is alive. -/
def plc_tick (s : process_state_t) : process_state_t :=
  let s1 := process_update_physics s
  if s1.controller_running then process_run_controller s1 else s1

/-- External inputs to the shared process state: a scheduler tick of the
process thread, or a client register write applied via
`process_from_registers` (heating_controller.c line 204). -/
inductive plc_event where
  | tick
  | write (registers : Fin 10 → ℕ)

/-- Effect of one event on the shared process state. -/
def plc_step (s : process_state_t) : plc_event → process_state_t
  | plc_event.tick => plc_tick s
  | plc_event.write registers => process_from_registers s registers

/-- The trajectory: the list of states after each successive event. -/
def plc_trajectory (s : process_state_t) : List plc_event → List process_state_t
  | [] => []
  | e :: es => plc_step s e :: plc_trajectory (plc_step s e) es

/-! ### Frame codec (modelled from the spec)

The FrameCodec component is not under src/: frame decoding for the PLC lives
in the external libmodbus library, of which only the caller `client_thread`
(heating_controller.c lines 135-231) appears in the repository.  The
definitions below are modelled from spec §3, §4.1, §4.5, §6. -/

/-- Modelled from the spec: the codec's framing-error taxonomy (spec §7:
framing errors are connection-fatal — close without reply). -/
inductive DecodeError where
  | BadProtocolId
  | Oversize
  | Truncated
deriving DecidableEq, Repr

/-- Modelled from the spec: a decoded wire frame (spec §3, §6):
`transactionId:u16, protocolId:u16 (must be 0), declaredLength:u16 (bytes
following the length field: unitId + PDU), unitId:u8`, and the PDU body
(function code + payload bytes). -/
structure Frame where
  transactionId : ℕ
  protocolId : ℕ
  declaredLength : ℕ
  unitId : ℕ
  body : List ℕ
deriving DecidableEq, Repr

/-- Big-endian 16-bit field from two bytes. -/
def parseU16 (hi lo : ℕ) : ℕ := hi * 256 + lo

/-- The declared length field parsed from a delivered byte sequence
(wire offsets 4-5, spec §6). -/
def frame_declared_length (bs : List ℕ) : ℕ :=
  parseU16 (bs.getD 4 0) (bs.getD 5 0)

/-- Modelled from the spec: `FrameCodec.decode(byteSource, maxPduSize)`
(spec §4.1).  `bs` is the byte sequence actually delivered on the socket
before close/timeout.  Reads the fixed 7-byte header (rejecting a nonzero
protocol id), derives `bodyLength = declaredLength - 1`, rejects immediately
when `bodyLength` exceeds the fixed maximum PDU size, then requires exactly
`bodyLength` further bytes; fewer delivered than declared is
`DecodeError.Truncated`, never a success with a short body. -/
def decode (bs : List ℕ) (maxPduSize : ℕ) : Except DecodeError Frame :=
  if bs.length < 7 then Except.error DecodeError.Truncated
  else if parseU16 (bs.getD 2 0) (bs.getD 3 0) ≠ 0 then
    Except.error DecodeError.BadProtocolId
  else
    let declaredLength := frame_declared_length bs
    let bodyLength := declaredLength - 1
    if bodyLength > maxPduSize then Except.error DecodeError.Oversize
    else if bs.length - 7 < bodyLength then Except.error DecodeError.Truncated
    else
      Except.ok
        { transactionId := parseU16 (bs.getD 0 0) (bs.getD 1 0)
          protocolId := 0
          declaredLength := declaredLength
          unitId := bs.getD 6 0
          body := (bs.drop 7).take bodyLength }

/-- Modelled from the spec: the number of body bytes the decoder writes into
the fixed-size frame buffer (spec §4.1): nothing after a header or oversize
rejection, otherwise never more than `bodyLength`, accumulating only the
bytes actually delivered. -/
def decode_body_bytes_written (bs : List ℕ) (maxPduSize : ℕ) : ℕ :=
  if bs.length < 7 then 0
  else if parseU16 (bs.getD 2 0) (bs.getD 3 0) ≠ 0 then 0
  else
    let bodyLength := frame_declared_length bs - 1
    if bodyLength > maxPduSize then 0
    else min bodyLength (bs.length - 7)

/-- Modelled from the spec: the serving step of a connection handler
(spec §4.5): a `DecodeError` closes the connection without sending any reply
(`none`); a successfully decoded frame is dispatched (`some`). -/
def serve_frame (bs : List ℕ) (maxPduSize : ℕ) : Option Frame :=
  match decode bs maxPduSize with
  | Except.error _ => none
  | Except.ok f => some f

/-! ### Accept-loop model (heating_controller.c `main`) -/

/-- `MAX_CONNECTIONS` (heating_controller.c line 35); passed to
`modbus_tcp_listen` as the backlog argument (line 298). -/
def MAX_CONNECTIONS : ℕ := 64

/-- Events acting on `g_client_count`: `accept` is a successful accept plus
client-thread spawn (lines 320-355: `g_client_count++`), `disconnect` is a
client thread finishing (lines 219-221: `g_client_count--`), `acceptFail` is
`accept()` returning -1 (count unchanged). -/
inductive server_event where
  | accept
  | disconnect
  | acceptFail
deriving DecidableEq, Repr

/-- Effect of one accept-loop event on `g_client_count` (heating_controller.c
lines 315-366): an accepted connection increments the count; no comparison
against `MAX_CONNECTIONS` occurs anywhere in the loop. -/
def server_step (count : ℤ) : server_event → ℤ
  | server_event.accept => count + 1
  | server_event.disconnect => count - 1
  | server_event.acceptFail => count

/-- `g_client_count` after a sequence of accept-loop events, from 0. -/
def server_count (evs : List server_event) : ℤ :=
  evs.foldl server_step 0

/-! ### Claim-side definitions and concrete states -/

/-- The status ladder exactly as claim C10 words it: a pure function of the
post-update inside temperature alone; compared against the source's
`status_update`. -/
def claim_status_ladder (t : ℚ) : process_status_t :=
  if 10 < t then STATUS_OK
  else if 5 < t then STATUS_WARNING
  else if 0 < t then STATUS_CRITICAL
  else if -2 < t then STATUS_FROZEN
  else STATUS_BURST

/-- Range conditions on the process state claimed by the data model:
valve_cmd and valve_actual in [0,100], setpoint in [0,40]. -/
def range_inv (s : process_state_t) : Prop :=
  0 ≤ s.valve_cmd ∧ s.valve_cmd ≤ 100 ∧
  0 ≤ s.valve_actual ∧ s.valve_actual ≤ 100 ∧
  0 ≤ s.setpoint ∧ s.setpoint ≤ 40

/-- A state in which the pipes have burst (status reached BURST). -/
def state_burst : process_state_t :=
  { process_init with status := STATUS_BURST, pipes_burst := true }

/-- Scenario B state: mode=AUTO, setpoint=20 (default), insideTemp=15. -/
def state_scenario_B : process_state_t :=
  { process_init with inside_temp := 15 }

/-- A cold state whose temperature recovers within one tick: status CRITICAL,
inside_temp = 4, no heat loss (outside = inside), valve fully open. -/
def state_recover : process_state_t :=
  { process_init with
      inside_temp := 4
      outside_temp := 4
      valve_cmd := 100
      valve_actual := 100
      status := STATUS_CRITICAL }

/-- Register image with an out-of-domain valve command (150) and an in-domain
setpoint (300 = 30.0 °C). -/
def regs_c2 : Fin 10 → ℕ :=
  fun i => if i = 1 then 150 else if i = 2 then 300 else 0

/-- Scenario D bytes: a frame declaring length = 60 while only 12 bytes are
ever delivered. -/
def bytes_scenario_D : List ℕ :=
  [0, 1, 0, 0, 0, 60, 17, 3, 0, 0, 0, 10]

/-! ### Helper lemmas -/

lemma clamp_int_0_100_nonneg (v : ℤ) : 0 ≤ clamp_int_0_100 v := by
  unfold clamp_int_0_100
  dsimp only
  split_ifs <;> omega

lemma clamp_int_0_100_le (v : ℤ) : clamp_int_0_100 v ≤ 100 := by
  unfold clamp_int_0_100
  dsimp only
  split_ifs <;> omega

lemma clamp_int_0_100_eq (v : ℤ) (h0 : 0 ≤ v) (h1 : v ≤ 100) :
    clamp_int_0_100 v = v := by
  unfold clamp_int_0_100
  dsimp only
  split_ifs <;> omega

lemma c_int_of_rat_nonneg (x : ℚ) (h : 0 ≤ x) : 0 ≤ c_int_of_rat x := by
  simp only [c_int_of_rat, if_pos h]
  exact Int.floor_nonneg.mpr h

lemma c_int_of_rat_le_100 (x : ℚ) (h0 : 0 ≤ x) (h1 : x ≤ 100) :
    c_int_of_rat x ≤ 100 := by
  simp only [c_int_of_rat, if_pos h0]
  have h2 : (⌊x⌋ : ℚ) ≤ 100 := le_trans (Int.floor_le x) h1
  exact_mod_cast h2

lemma max_change_eq : c_int_of_rat (VALVE_SLEW_RATE * (UPDATE_INTERVAL_MS / 1000)) = 5 := by
  norm_num [c_int_of_rat, VALVE_SLEW_RATE, UPDATE_INTERVAL_MS]

lemma slew_valve_self (cmd mc : ℤ) (hmc : 0 ≤ mc) : slew_valve cmd cmd mc = cmd := by
  unfold slew_valve
  dsimp only
  split_ifs <;> omega

lemma phys_of_burst (s : process_state_t) (h : s.pipes_burst = true) :
    process_update_physics s = s := by
  simp [process_update_physics, h]

/-- The reachability invariant linking status BURST to the pipes_burst flag. -/
def burst_inv (s : process_state_t) : Prop :=
  s.status = STATUS_BURST → s.pipes_burst = true

lemma status_update_burst_link (t : ℚ) (st : process_status_t) (pb : Bool)
    (h : st = STATUS_BURST → pb = true) :
    (status_update t st pb).1 = STATUS_BURST → (status_update t st pb).2 = true := by
  unfold status_update
  split_ifs <;> simp_all

lemma burst_inv_init : burst_inv process_init := by
  intro h
  simp [process_init] at h

lemma burst_inv_phys (s : process_state_t) (h : burst_inv s) :
    burst_inv (process_update_physics s) := by
  by_cases hpb : s.pipes_burst = true
  · rwa [phys_of_burst s hpb]
  · have hpb' : s.pipes_burst = false := by simpa using hpb
    unfold burst_inv
    simp only [process_update_physics, hpb', if_false, Bool.false_eq_true]
    exact status_update_burst_link _ s.status false (fun hst => absurd (h hst) (by simp [hpb']))

lemma burst_inv_ctrl (s : process_state_t) (h : burst_inv s) :
    burst_inv (process_run_controller s) := by
  unfold process_run_controller
  split_ifs <;> exact h

lemma burst_inv_crash (s : process_state_t) (h : burst_inv s) :
    burst_inv (process_controller_crash s) := h

lemma burst_inv_from_registers (s : process_state_t) (h : burst_inv s)
    (registers : Fin 10 → ℕ) : burst_inv (process_from_registers s registers) := by
  unfold process_from_registers burst_inv
  dsimp only
  split_ifs <;> exact h

lemma status_update_eq_ladder (t : ℚ) (st : process_status_t)
    (h : st ≠ STATUS_BURST) :
    (status_update t st false).1 = claim_status_ladder t ∧
    ((status_update t st false).2 = true ↔ t ≤ -2) := by
  unfold status_update claim_status_ladder TEMP_FROZEN TEMP_CRITICAL TEMP_WARNING
  split_ifs <;> simp_all <;> linarith

lemma range_inv_init : range_inv process_init := by
  refine ⟨by norm_num [process_init], by norm_num [process_init], by norm_num [process_init],
    by norm_num [process_init], ?_, ?_⟩ <;>
    norm_num [process_init, TEMP_SETPOINT_DEFAULT]

lemma range_inv_phys (s : process_state_t) (h : range_inv s) :
    range_inv (process_update_physics s) := by
  by_cases hpb : s.pipes_burst = true
  · rwa [phys_of_burst s hpb]
  · have hpb' : s.pipes_burst = false := by simpa using hpb
    obtain ⟨h1, h2, h3, h4, h5, h6⟩ := h
    simp only [process_update_physics, hpb', if_false, Bool.false_eq_true]
    exact ⟨h1, h2, clamp_int_0_100_nonneg _, clamp_int_0_100_le _, h5, h6⟩

lemma range_inv_ctrl (s : process_state_t) (h : range_inv s) :
    range_inv (process_run_controller s) := by
  obtain ⟨h1, h2, h3, h4, h5, h6⟩ := h
  unfold process_run_controller
  split_ifs
  · exact ⟨h1, h2, h3, h4, h5, h6⟩
  · exact ⟨h1, h2, h3, h4, h5, h6⟩
  · exact ⟨clamp_int_0_100_nonneg _, clamp_int_0_100_le _, h3, h4, h5, h6⟩

lemma pfr_valve_cmd (s : process_state_t) (registers : Fin 10 → ℕ) :
    (process_from_registers s registers).valve_cmd =
      if registers 1 ≤ 100 then (registers 1 : ℤ) else s.valve_cmd := by
  unfold process_from_registers
  dsimp only
  split_ifs <;> rfl

lemma pfr_setpoint (s : process_state_t) (registers : Fin 10 → ℕ) :
    (process_from_registers s registers).setpoint =
      if registers 2 ≤ 400 then (registers 2 : ℚ) / 10 else s.setpoint := by
  unfold process_from_registers
  dsimp only
  split_ifs <;> rfl

lemma pfr_mode (s : process_state_t) (registers : Fin 10 → ℕ) :
    (process_from_registers s registers).mode =
      if registers 3 ≤ 1 then (if registers 3 = 0 then MODE_MANUAL else MODE_AUTO)
      else s.mode := by
  unfold process_from_registers
  dsimp only
  split_ifs <;> rfl

lemma pfr_valve_actual (s : process_state_t) (registers : Fin 10 → ℕ) :
    (process_from_registers s registers).valve_actual = s.valve_actual := by
  unfold process_from_registers
  dsimp only
  split_ifs <;> rfl

lemma pfr_controller_running (s : process_state_t) (registers : Fin 10 → ℕ) :
    (process_from_registers s registers).controller_running = s.controller_running := by
  unfold process_from_registers
  dsimp only
  split_ifs <;> rfl

lemma range_inv_crash (s : process_state_t) (h : range_inv s) :
    range_inv (process_controller_crash s) := by
  obtain ⟨h1, h2, h3, h4, h5, h6⟩ := h
  exact ⟨by norm_num [process_controller_crash], by norm_num [process_controller_crash],
    h3, h4, h5, h6⟩

lemma range_inv_from_registers (s : process_state_t) (h : range_inv s)
    (registers : Fin 10 → ℕ) : range_inv (process_from_registers s registers) := by
  obtain ⟨h1, h2, h3, h4, h5, h6⟩ := h
  refine ⟨?_, ?_, ?_, ?_, ?_, ?_⟩
  · rw [pfr_valve_cmd]
    split_ifs
    · exact Int.natCast_nonneg _
    · exact h1
  · rw [pfr_valve_cmd]
    split_ifs with hr
    · exact_mod_cast hr
    · exact h2
  · rw [pfr_valve_actual]
    exact h3
  · rw [pfr_valve_actual]
    exact h4
  · rw [pfr_setpoint]
    split_ifs
    · positivity
    · exact h5
  · rw [pfr_setpoint]
    split_ifs with hr
    · have h400 : ((registers 2 : ℕ) : ℚ) ≤ 400 := by exact_mod_cast hr
      have h10 : (0:ℚ) < 10 := by norm_num
      calc ((registers 2 : ℕ) : ℚ) / 10 ≤ 400 / 10 :=
            (div_le_div_iff_of_pos_right h10).mpr h400
        _ = 40 := by norm_num
    · exact h6

lemma ctrl_of_not_running (s : process_state_t) (h : s.controller_running = false) :
    process_run_controller s = s := by
  simp [process_run_controller, h]

lemma phys_controller_running (s : process_state_t) :
    (process_update_physics s).controller_running = s.controller_running := by
  by_cases hpb : s.pipes_burst = true
  · rw [phys_of_burst s hpb]
  · have hpb' : s.pipes_burst = false := by simpa using hpb
    simp [process_update_physics, hpb']

lemma phys_valve_cmd (s : process_state_t) :
    (process_update_physics s).valve_cmd = s.valve_cmd := by
  by_cases hpb : s.pipes_burst = true
  · rw [phys_of_burst s hpb]
  · have hpb' : s.pipes_burst = false := by simpa using hpb
    simp [process_update_physics, hpb']

lemma phys_valve_actual_frozen (s : process_state_t)
    (hrun : s.controller_running = false)
    (hlo : 0 ≤ s.valve_actual) (hhi : s.valve_actual ≤ 100) :
    (process_update_physics s).valve_actual = s.valve_actual := by
  by_cases hpb : s.pipes_burst = true
  · rw [phys_of_burst s hpb]
  · have hpb' : s.pipes_burst = false := by simpa using hpb
    simp only [process_update_physics, hpb', if_false, Bool.false_eq_true, hrun]
    exact clamp_int_0_100_eq _ hlo hhi

/-! ### Claim theorems -/

/-- Claim C3: starting from any state that has reached BURST (where the
reachability link status = BURST → pipes_burst holds: it is established at
init and preserved by every operation, see the burst_inv lemmas), every
sequence of physics ticks leaves the whole state unchanged — so the status
remains BURST forever and no tick updates inside_temp, valve_actual,
heater_power or runtime. -/
theorem burst_status_terminal (n : ℕ) (s : process_state_t)
    (hinv : s.status = STATUS_BURST → s.pipes_burst = true)
    (hB : s.status = STATUS_BURST) :
    physics_iter n s = s ∧ (physics_iter n s).status = STATUS_BURST := by
  have hpb : s.pipes_burst = true := hinv hB
  have hfix : ∀ m, physics_iter m s = s := by
    intro m
    induction m with
    | zero => rfl
    | succ k ih =>
        show physics_iter k (process_update_physics s) = s
        rw [phys_of_burst s hpb]
        exact ih
  exact ⟨hfix n, by rw [hfix n]; exact hB⟩

/-- Witness for C3 at a concrete burst state and n = 3. -/
theorem burst_status_terminal_witness :
    state_burst.status = STATUS_BURST ∧
    physics_iter 3 state_burst = state_burst ∧
    (physics_iter 3 state_burst).status = STATUS_BURST :=
  ⟨rfl, (burst_status_terminal 3 state_burst (fun _ => rfl) rfl).1,
    (burst_status_terminal 3 state_burst (fun _ => rfl) rfl).2⟩

/-- Claim C4: the controller crash is terminal — process_controller_crash
clears controller_running and forces valve_cmd to 0 once; afterwards, for any
state with a dead controller, process_run_controller changes nothing,
process_update_physics leaves valve_actual frozen (given the 0-100 range
invariant), and no operation revives controller_running. -/
theorem controller_crash_terminal (s : process_state_t) :
    (process_controller_crash s).controller_running = false ∧
    (process_controller_crash s).valve_cmd = 0 ∧
    (∀ t : process_state_t, t.controller_running = false →
      process_run_controller t = t ∧
      (process_update_physics t).controller_running = false ∧
      (∀ registers : Fin 10 → ℕ,
        (process_from_registers t registers).controller_running = false) ∧
      (0 ≤ t.valve_actual → t.valve_actual ≤ 100 →
        (process_update_physics t).valve_actual = t.valve_actual)) := by
  refine ⟨rfl, rfl, ?_⟩
  intro t ht
  refine ⟨ctrl_of_not_running t ht, ?_, ?_, ?_⟩
  · rw [phys_controller_running]
    exact ht
  · intro registers
    rw [pfr_controller_running]
    exact ht
  · intro hlo hhi
    exact phys_valve_actual_frozen t ht hlo hhi

/-- Witness for C4: crash from the initial state, then one tick. -/
theorem controller_crash_terminal_witness :
    process_run_controller (process_controller_crash process_init)
      = process_controller_crash process_init ∧
    (process_update_physics (process_controller_crash process_init)).valve_actual
      = (process_controller_crash process_init).valve_actual := by
  have h := (controller_crash_terminal process_init).2.2
    (process_controller_crash process_init) rfl
  exact ⟨h.1, h.2.2.2 (by decide) (by decide)⟩

/-- Claim C8: the tick step is deterministic — identical initial states run
through the same event sequence (ticks and register writes at the same
points) produce identical trajectories. -/
theorem tick_trajectory_deterministic (evs : List plc_event)
    (s1 s2 : process_state_t) (_halive : s1.controller_running = true)
    (heq : s1 = s2) :
    plc_trajectory s1 evs = plc_trajectory s2 evs := by
  subst heq
  rfl

/-- Witness for C8 at the initial state with one tick. -/
theorem tick_trajectory_deterministic_witness :
    plc_trajectory process_init [plc_event.tick]
      = plc_trajectory process_init [plc_event.tick] :=
  tick_trajectory_deterministic [plc_event.tick] process_init process_init rfl rfl

/-- Claim C9: the range invariant (valve_cmd, valve_actual in [0,100],
setpoint in [0,40]) holds after process_init and is preserved by
process_update_physics, process_run_controller, process_controller_crash and
process_from_registers. -/
theorem range_invariant_all_ops :
    range_inv process_init ∧
    ∀ s : process_state_t, range_inv s →
      range_inv (process_update_physics s) ∧
      range_inv (process_run_controller s) ∧
      range_inv (process_controller_crash s) ∧
      ∀ registers : Fin 10 → ℕ, range_inv (process_from_registers s registers) := by
  refine ⟨range_inv_init, ?_⟩
  intro s h
  exact ⟨range_inv_phys s h, range_inv_ctrl s h, range_inv_crash s h,
    fun registers => range_inv_from_registers s h registers⟩

/-- Witness for C9: the invariant after one physics tick from init. -/
theorem range_invariant_all_ops_witness :
    range_inv (process_update_physics process_init) :=
  (range_invariant_all_ops.2 process_init range_invariant_all_ops.1).1

/-- Claim C5: with controller alive, mode AUTO and pipes not burst, one
controller invocation computes error = setpoint - insideTemp against the
deadband 2 and sets valve_cmd to 100 when error > 2, to 0 when error < -2,
and otherwise to the C truncation of 50 + (error/2)*50, which already lies in
[0,100]. -/
theorem controller_deadband_law (s : process_state_t)
    (hrun : s.controller_running = true) (hmode : s.mode = MODE_AUTO)
    (hpb : s.pipes_burst = false) :
    (s.setpoint - s.inside_temp > 2 →
      (process_run_controller s).valve_cmd = 100) ∧
    (s.setpoint - s.inside_temp < -2 →
      (process_run_controller s).valve_cmd = 0) ∧
    (-2 ≤ s.setpoint - s.inside_temp → s.setpoint - s.inside_temp ≤ 2 →
      (process_run_controller s).valve_cmd
        = c_int_of_rat (50 + (s.setpoint - s.inside_temp) / 2 * 50) ∧
      0 ≤ (process_run_controller s).valve_cmd ∧
      (process_run_controller s).valve_cmd ≤ 100) := by
  have hvc : (process_run_controller s).valve_cmd
      = clamp_int_0_100
          (if s.setpoint - s.inside_temp > 2 then 100
           else if s.setpoint - s.inside_temp < -2 then 0
           else c_int_of_rat (50 + (s.setpoint - s.inside_temp) / 2 * 50)) := by
    simp [process_run_controller, hrun, hmode, hpb]
  refine ⟨?_, ?_, ?_⟩
  · intro h
    rw [hvc, if_pos h]
    decide
  · intro h
    rw [hvc, if_neg (by linarith), if_pos h]
    decide
  · intro h1 h2
    have hx0 : (0:ℚ) ≤ 50 + (s.setpoint - s.inside_temp) / 2 * 50 := by linarith
    have hx100 : 50 + (s.setpoint - s.inside_temp) / 2 * 50 ≤ 100 := by linarith
    have hi0 := c_int_of_rat_nonneg _ hx0
    have hi100 := c_int_of_rat_le_100 _ hx0 hx100
    rw [hvc, if_neg (by linarith), if_neg (by linarith)]
    exact ⟨clamp_int_0_100_eq _ hi0 hi100, clamp_int_0_100_nonneg _,
      clamp_int_0_100_le _⟩

/-- Witness for C5: scenario B (setpoint 20, insideTemp 15, error 5 > 2). -/
theorem controller_deadband_law_witness :
    (process_run_controller state_scenario_B).valve_cmd = 100 := by
  apply (controller_deadband_law state_scenario_B rfl rfl rfl).1
  norm_num [state_scenario_B, process_init, TEMP_SETPOINT_DEFAULT]

/-- Claim C6: a tick from a non-burst state (here with the valve already at
its commanded position and in range, controller alive) updates inside_temp by
(heatGain - heatLoss) * dt with heatLoss = HEAT_LOSS_FACTOR * (inside -
outside) and heatGain = (valveActual/100) * HEATER_POWER_MAX / THERMAL_MASS,
then clamps to the fixed safety range. -/
theorem thermal_update_formula (s : process_state_t)
    (hpb : s.pipes_burst = false) (hrun : s.controller_running = true)
    (heq : s.valve_cmd = s.valve_actual)
    (hlo : 0 ≤ s.valve_actual) (hhi : s.valve_actual ≤ 100) :
    (process_update_physics s).inside_temp =
      clamp_temp (s.inside_temp +
        ((s.valve_actual : ℚ) / 100 * HEATER_POWER_MAX / THERMAL_MASS -
          (s.inside_temp - s.outside_temp) * HEAT_LOSS_FACTOR) * 1) := by
  have hslew : slew_valve s.valve_cmd s.valve_actual
      (c_int_of_rat (VALVE_SLEW_RATE * (UPDATE_INTERVAL_MS / 1000)))
      = s.valve_actual := by
    rw [heq]
    exact slew_valve_self _ _ (by rw [max_change_eq]; norm_num)
  simp only [process_update_physics, hpb, Bool.false_eq_true, if_false, hrun,
    if_true, ite_true]
  rw [hslew, clamp_int_0_100_eq _ hlo hhi]
  norm_num [UPDATE_INTERVAL_MS]

/-- Witness for C6: scenario A (insideTemp 20, outsideTemp -15, valveActual
50, dt 1 s) — the next inside temperature is exactly
20 + ((50/100)*80/30 - (20-(-15))*0.015) = 2497/120 (≈ 20.808 °C). -/
theorem thermal_update_formula_witness :
    (process_update_physics process_init).inside_temp = 2497 / 120 := by
  rw [thermal_update_formula process_init rfl rfl rfl (by decide) (by decide)]
  norm_num [clamp_temp, process_init, TEMP_INITIAL_INSIDE, TEMP_OUTSIDE_DEFAULT,
    HEATER_POWER_MAX, THERMAL_MASS, HEAT_LOSS_FACTOR]

/-- Claim C10: entered with pipes_burst false (and the reachability link
status = BURST → pipes_burst, which holds at every call made by the program:
see the burst_inv lemmas), process_update_physics recomputes status as a pure
function of the post-update inside_temp alone — the ordered ladder OK /
WARNING / CRITICAL / FROZEN / BURST of claim_status_ladder — and sets
pipes_burst exactly when the post-update temperature is ≤ -2. -/
theorem status_pure_function_of_temp (s : process_state_t)
    (hinv : s.status = STATUS_BURST → s.pipes_burst = true)
    (hpb : s.pipes_burst = false) :
    (process_update_physics s).status
      = claim_status_ladder (process_update_physics s).inside_temp ∧
    ((process_update_physics s).pipes_burst = true ↔
      (process_update_physics s).inside_temp ≤ -2) := by
  have hne : s.status ≠ STATUS_BURST := fun h => absurd (hinv h) (by simp [hpb])
  simp only [process_update_physics, hpb, Bool.false_eq_true, if_false]
  exact status_update_eq_ladder _ s.status hne

/-- Witness for C10 at a recovering state: status CRITICAL before the tick,
post-update temperature 4 + 8/3 = 20/3 ∈ (5,10], hence status WARNING after —
in particular the status strictly decreased in severity before BURST. -/
theorem status_pure_function_of_temp_witness :
    state_recover.status = STATUS_CRITICAL ∧
    (process_update_physics state_recover).status = STATUS_WARNING := by
  refine ⟨rfl, ?_⟩
  rw [(status_pure_function_of_temp state_recover (by decide) rfl).1]
  norm_num [process_update_physics, state_recover, process_init, clamp_int_0_100,
    clamp_temp, slew_valve, c_int_of_rat, status_update, claim_status_ladder,
    VALVE_SLEW_RATE, UPDATE_INTERVAL_MS, TEMP_INITIAL_INSIDE, TEMP_OUTSIDE_DEFAULT,
    HEAT_LOSS_FACTOR, HEATER_POWER_MAX, THERMAL_MASS, TEMP_FROZEN, TEMP_CRITICAL,
    TEMP_WARNING]

/-- Claim C1: for every delivered byte sequence whose declared length field
exceeds the bytes actually delivered, the handler closes the connection
without a reply, and the number of body bytes written into the fixed-size
frame buffer is bounded by min(declaredLength, maxPduSize) — the maximum
being a constant independent of the attacker-supplied length field. -/
theorem truncated_frame_closes_without_reply (bs : List ℕ) (maxPduSize : ℕ)
    (hlen : 7 ≤ bs.length) (hshort : bs.length < frame_declared_length bs + 6) :
    serve_frame bs maxPduSize = none ∧
    decode_body_bytes_written bs maxPduSize
      ≤ min (frame_declared_length bs) maxPduSize := by
  constructor
  · unfold serve_frame decode
    dsimp only
    split_ifs with h1 h2 h3 h4
    · rfl
    · rfl
    · rfl
    · rfl
    · exfalso
      omega
  · unfold decode_body_bytes_written
    dsimp only
    split_ifs with h1 h2 h3
    · exact Nat.zero_le _
    · exact Nat.zero_le _
    · exact Nat.zero_le _
    · exact le_min (le_trans (min_le_left _ _) (by omega))
        (le_trans (min_le_left _ _) (by omega))

/-- Witness for C1: scenario D — a frame declaring length 60 while only 12
bytes are delivered, with maximum PDU size 253. -/
theorem truncated_frame_closes_without_reply_witness :
    serve_frame bytes_scenario_D 253 = none ∧
    decode_body_bytes_written bytes_scenario_D 253
      ≤ min (frame_declared_length bytes_scenario_D) 253 :=
  truncated_frame_closes_without_reply bytes_scenario_D 253 (by decide) (by decide)

/-- Claim C2 counterexample: a single register-write request carrying the
out-of-domain valve command 150 together with the in-domain setpoint 300 is
not rejected wholesale — process_from_registers still applies the setpoint
field, so a field of the process state is modified. -/
theorem register_write_not_atomic :
    100 < regs_c2 1 ∧
    (process_from_registers process_init regs_c2).setpoint
      ≠ process_init.setpoint := by
  constructor
  · decide
  · have h2 : regs_c2 2 = 300 := by decide
    rw [pfr_setpoint, h2]
    norm_num [process_init, TEMP_SETPOINT_DEFAULT]

/-- Claim C2 amended: process_from_registers validates each writable field's
domain independently and silently — an out-of-domain value leaves only that
field unchanged (no exception reply is produced on this path) while in-domain
fields of the same request are still applied; in particular a valve-command
value above 100 (e.g. 150) leaves valve_cmd unchanged. -/
theorem register_write_per_field (s : process_state_t) (registers : Fin 10 → ℕ) :
    (registers 1 ≤ 100 →
      (process_from_registers s registers).valve_cmd = (registers 1 : ℤ)) ∧
    (100 < registers 1 →
      (process_from_registers s registers).valve_cmd = s.valve_cmd) ∧
    (registers 2 ≤ 400 →
      (process_from_registers s registers).setpoint = (registers 2 : ℚ) / 10) ∧
    (400 < registers 2 →
      (process_from_registers s registers).setpoint = s.setpoint) ∧
    (registers 3 ≤ 1 →
      (process_from_registers s registers).mode
        = (if registers 3 = 0 then MODE_MANUAL else MODE_AUTO)) ∧
    (1 < registers 3 →
      (process_from_registers s registers).mode = s.mode) := by
  refine ⟨?_, ?_, ?_, ?_, ?_, ?_⟩ <;> intro h
  · rw [pfr_valve_cmd, if_pos h]
  · rw [pfr_valve_cmd, if_neg (by omega)]
  · rw [pfr_setpoint, if_pos h]
  · rw [pfr_setpoint, if_neg (by omega)]
  · rw [pfr_mode, if_pos h]
  · rw [pfr_mode, if_neg (by omega)]

/-- Witness for the amended C2: the valve-command register write of 150 is
ignored (valve_cmd unchanged). -/
theorem register_write_per_field_witness :
    (process_from_registers process_init regs_c2).valve_cmd
      = process_init.valve_cmd :=
  (register_write_per_field process_init regs_c2).2.1 (by decide)

/-- Claim C7 counterexample: the accept loop of main never compares
g_client_count with MAX_CONNECTIONS — 65 accepted connections drive the live
connection count to 65 > MAX_CONNECTIONS = 64. -/
theorem accept_loop_exceeds_max_connections :
    (MAX_CONNECTIONS : ℤ) < server_count (List.replicate 65 server_event.accept) := by
  decide

lemma server_foldl_replicate_accept (n : ℕ) (c : ℤ) :
    List.foldl server_step c (List.replicate n server_event.accept) = c + n := by
  induction n generalizing c with
  | zero => simp
  | succ k ih =>
      rw [List.replicate_succ, List.foldl_cons, ih]
      show c + 1 + (k : ℤ) = c + ((k : ℕ) + 1 : ℕ)
      push_cast
      ring

/-- Claim C7 amended: MAX_CONNECTIONS is only the listen backlog passed to
modbus_tcp_listen; the accept loop increments the live connection count on
every accepted connection with no upper-bound check, so after n accepted
connections the count is exactly n — unbounded, and above MAX_CONNECTIONS
whenever n exceeds 64. -/
theorem accept_loop_count_unbounded (n : ℕ) :
    server_count (List.replicate n server_event.accept) = n := by
  unfold server_count
  rw [server_foldl_replicate_accept]
  ring
